import Mathlib

/-!
Verification of the filter / search / report pipeline of the NYC collision
dashboard (`src/main.py`, callback `update_all`).

The callback is shallowly embedded: the pandas dataframe becomes a
`List Row`, each `dff = dff[mask]` step becomes a `List.filter`, the Python
string operations (`str.lower`, substring `in`, `re.findall(r"\b(20\d{2})\b", q)`)
are modelled character-exactly for ASCII text, and the ten plotly figures are
abstracted to opaque `Fig` tags (none of the verified properties depend on
chart contents, only on which figures are produced and on the filtered rows
and resolved metric column).
-/

/-- ASCII model of Python `str.lower` (the dashboard's vocabularies and
keywords are all ASCII). -/
def lowerChar (c : Char) : Char :=
  if 65 ≤ c.toNat ∧ c.toNat ≤ 90 then Char.ofNat (c.toNat + 32) else c

/-- ASCII model of Python `str.upper`, used for `b.upper()` in the borough
search loop. -/
def upperChar (c : Char) : Char :=
  if 97 ≤ c.toNat ∧ c.toNat ≤ 122 then Char.ofNat (c.toNat - 32) else c

/-- Lower-cased character list of a query string: models `q = query.lower()`. -/
def lowerQ (query : String) : List Char :=
  query.data.map lowerChar

/-- Upper-cased string: models `b.upper()`. -/
def upperStr (s : String) : String :=
  String.mk (s.data.map upperChar)

/-- ASCII regex class `\w` = `[A-Za-z0-9_]`, as used by the `\b` word
boundaries in `re.findall(r"\b(20\d{2})\b", q)`. -/
def isWordChar (c : Char) : Bool :=
  (48 ≤ c.toNat && c.toNat ≤ 57) || (65 ≤ c.toNat && c.toNat ≤ 90) ||
    (97 ≤ c.toNat && c.toNat ≤ 122) || c.toNat == 95

/-- ASCII regex class `\d` = `[0-9]`. -/
def isDigitB (c : Char) : Bool :=
  48 ≤ c.toNat && c.toNat ≤ 57

/-- Word-character test on the character preceding the scan position
(`none` = start of string, which is a word boundary). -/
def isWordCharOpt : Option Char → Bool
  | none => false
  | some c => isWordChar c

/-- Word-character test on the character following a candidate match
(end of string is a word boundary). -/
def isWordCharHead : List Char → Bool
  | [] => false
  | c :: _ => isWordChar c

/-- Integer value of the two variable digits of a `20\d{2}` match:
models Python `int("20" + d3 + d4)`. -/
def yearVal (d3 d4 : Char) : Nat :=
  2000 + 10 * (d3.toNat - 48) + (d4.toNat - 48)

/-- A `\b20\d{2}\b` match starting at the current scan position: the literal
digits `2`, `0`, two further digits, and a non-word character (or string
edge) on both sides.  `prev` is the character before the position. -/
def yearHere (prev : Option Char) (c1 : Char) (rest : List Char) : Option Nat :=
  match rest with
  | c2 :: c3 :: c4 :: rest2 =>
    if c1 == '2' && c2 == '0' && isDigitB c3 && isDigitB c4 &&
        !isWordCharOpt prev && !isWordCharHead rest2 then
      some (yearVal c3 c4)
    else none
  | _ => none

/-- Model of `re.findall(r"\b(20\d{2})\b", q)` followed by `int(...)`:
left-to-right scan collecting every boundary-valid `20\d{2}` match.
The scan advances one character at a time, whereas `re.findall` resumes
after the four matched characters; the two agree because boundary-valid
matches can never overlap (the three characters after a match start are
`0` and two digits — all word characters — so no position inside a match
has the non-word left neighbour a second match would need). -/
def findYears (prev : Option Char) : List Char → List Nat
  | [] => []
  | c1 :: rest =>
    match yearHere prev c1 rest with
    | some y => y :: findYears (some c1) rest
    | none => findYears (some c1) rest

/-- The character, if any, immediately preceding the suffix that follows
`pre` during the scan (the scanner's `prev` after consuming `pre`). -/
def lastPrev (prev : Option Char) (pre : List Char) : Option Char :=
  pre.foldl (fun _ c => some c) prev

/-- Contiguous-substring test on character lists: models Python `needle in hay`
for strings. -/
def containsSubL (needle : List Char) : List Char → Bool
  | [] => needle.isEmpty
  | c :: rest => needle.isPrefixOf (c :: rest) || containsSubL needle rest

/-- Substring test with a `String` needle against an already-lowered query. -/
def containsSub (needle : String) (hay : List Char) : Bool :=
  containsSubL needle.data hay

/-- One dataframe row, restricted to the columns `update_all` reads:
the five dropdown-filter columns, the free-text-relevant text columns and
the per-person-type injury counts.  `crash_year` is `Option` because
`pd.to_datetime(..., errors="coerce").dt.year` yields NaN (matched by no
`isin` check) on unparsable dates. -/
structure Row where
  borough : String
  crash_year : Option Nat
  vehicle_category : String
  contributing_factor_vehicle_1 : String
  person_injury : String
  on_street_name : String
  person_type : String
  number_of_pedestrians_injured : Nat
  number_of_cyclist_injured : Nat
  number_of_motorist_injured : Nat
deriving DecidableEq, Repr

/-- The five dropdown `State`s of the callback.  Dash passes `None` or a
possibly empty list; both falsy values skip the corresponding filter, so an
empty list models both. -/
structure Selection where
  borough : List String
  year : List Nat
  vehicle : List String
  factor : List String
  injury : List String
deriving DecidableEq, Repr

/-- A figure returned by the callback, abstracted to its role: the
"No data available for selected filters / search." empty-state scatter, or a
populated chart tagged by the graph id it is destined for. -/
inductive Fig where
  | emptyState : Fig
  | chart : String → Fig
deriving DecidableEq, Repr

/-- The borough keywords scanned for in the free text
(`for b in ["bronx", "brooklyn", "manhattan", "queens", "staten island"]`). -/
def boroughKeywords : List String :=
  ["bronx", "brooklyn", "manhattan", "queens", "staten island"]

/-- The person-type keyword → injury-column mapping dict of `update_all`. -/
def personMapping : List (String × String) :=
  [("pedestrian", "number_of_pedestrians_injured"),
   ("cyclist", "number_of_cyclist_injured"),
   ("motorist", "number_of_motorist_injured")]

/-- The five sequential dropdown filters
(`if borough: dff = dff[dff["borough"].isin(borough)]`, etc.). -/
def applyDropdownFilters (sel : Selection) (rows : List Row) : List Row :=
  let r1 := if sel.borough.isEmpty then rows else
    rows.filter (fun r => sel.borough.contains r.borough)
  let r2 := if sel.year.isEmpty then r1 else
    r1.filter (fun r => match r.crash_year with
      | some y => sel.year.contains y
      | none => false)
  let r3 := if sel.vehicle.isEmpty then r2 else
    r2.filter (fun r => sel.vehicle.contains r.vehicle_category)
  let r4 := if sel.factor.isEmpty then r3 else
    r3.filter (fun r => sel.factor.contains r.contributing_factor_vehicle_1)
  let r5 := if sel.injury.isEmpty then r4 else
    r4.filter (fun r => sel.injury.contains r.person_injury)
  r5

/-- The borough-detection loop of the search block: for each keyword found as
a substring of the lowered query, the frame is re-filtered to rows whose
borough equals the upper-cased keyword. -/
def applyBoroughSearch (q : List Char) (rows : List Row) : List Row :=
  boroughKeywords.foldl
    (fun acc b => if containsSub b q then
        acc.filter (fun r => r.borough == upperStr b)
      else acc)
    rows

/-- The year-detection step: `years = re.findall(...)`;
`if years: dff = dff[dff["crash_year"].isin(map(int, years))]`. -/
def applyYearSearch (q : List Char) (rows : List Row) : List Row :=
  let years := findYears none q
  if years.isEmpty then rows
  else rows.filter (fun r => match r.crash_year with
    | some y => years.contains y
    | none => false)

/-- The guard `if query and len(query) >= 3:` around the whole search block
(an absent/`None` query is modelled by `""`, which Python also treats as
falsy). -/
def searchGate (query : String) : Bool :=
  (query != "") && decide (3 ≤ query.length)

/-- The resolved person-type metric column: initialized to
`"number_of_cyclist_injured"` before the search block, then overwritten by
each person-type keyword found as a substring of the lowered query (so the
last matching entry of `personMapping` wins). -/
def resolvePersonColumn (query : String) : String :=
  if searchGate query then
    personMapping.foldl
      (fun acc kc => if containsSub kc.fst (lowerQ query) then kc.snd else acc)
      "number_of_cyclist_injured"
  else "number_of_cyclist_injured"

/-- The filtered frame `dff` as it stands after the dropdown filters and the
search block of `update_all`. -/
def filteredRows (sel : Selection) (query : String) (data : List Row) : List Row :=
  let dff := applyDropdownFilters sel data
  if searchGate query then
    applyYearSearch (lowerQ query) (applyBoroughSearch (lowerQ query) dff)
  else dff

/-- The ids of the ten `Output(..., "figure")` declarations of the
`update_all` callback. -/
def declaredOutputs : List String :=
  ["injury_trend_graph", "factor_bar_graph", "bar_person_graph",
   "line_day_graph", "vehicle_severeinjuries_graph", "gender_borough_graph",
   "user_hourly_injuries_graph", "user_severity_heatmap", "age_group_graph",
   "street_crash_severity_barchart"]

/-- The figure list returned by `update_all`: on an empty filtered frame the
code returns `[empty] * 9`; otherwise it returns the ten charts
`fig1, ..., fig10`. -/
def update_all (sel : Selection) (query : String) (data : List Row) : List Fig :=
  let dff := filteredRows sel query data
  if dff.isEmpty then List.replicate 9 Fig.emptyState
  else declaredOutputs.map Fig.chart

/-- The upper-cased borough keywords actually matched in a lowered query, in
loop order: the values the borough search equates `dff["borough"]` with. -/
def matchedBoroughs (q : List Char) : List String :=
  (boroughKeywords.filter (fun b => containsSub b q)).map upperStr

/-- The borough values embedded in the emitted filter for a raw query
(empty when the search gate rejects the query). -/
def matchedBoroughsOf (query : String) : List String :=
  if searchGate query then matchedBoroughs (lowerQ query) else []

/-- The integer year constraint embedded in the emitted filter for a raw
query (empty when the search gate rejects the query). -/
def yearConstraintOf (query : String) : List Nat :=
  if searchGate query then findYears none (lowerQ query) else []

/-- The borough vocabulary: the only borough strings the search can ever
compare against (the `b.upper()` images of the five keywords). -/
def boroughVocab : List String :=
  ["BRONX", "BROOKLYN", "MANHATTAN", "QUEENS", "STATEN ISLAND"]

/-- The injury-count columns `resolvePersonColumn` can emit. -/
def injuryColumns : List String :=
  ["number_of_pedestrians_injured", "number_of_cyclist_injured",
   "number_of_motorist_injured"]

/-- Quote characters (`'`, `"` as code points 39 and 34), the SQL statement
separator `;` (59), and ASCII control characters. -/
def isDangerousChar (c : Char) : Bool :=
  c.toNat == 39 || c.toNat == 34 || c.toNat == 59 || c.toNat < 32

/-- A string containing at least one quote / SQL metacharacter / control
character. -/
def hasDangerousChar (s : String) : Bool :=
  s.data.any isDangerousChar

/-- Propositional form of the five dropdown constraints: whenever a dropdown
list is non-empty, a surviving row's column value lies in it. -/
def dropdownOk (sel : Selection) (r : Row) : Prop :=
  (sel.borough.isEmpty = false → sel.borough.contains r.borough = true) ∧
  (sel.year.isEmpty = false →
    (match r.crash_year with
      | some y => sel.year.contains y
      | none => false) = true) ∧
  (sel.vehicle.isEmpty = false → sel.vehicle.contains r.vehicle_category = true) ∧
  (sel.factor.isEmpty = false →
    sel.factor.contains r.contributing_factor_vehicle_1 = true) ∧
  (sel.injury.isEmpty = false → sel.injury.contains r.person_injury = true)

/-- Propositional form of the borough-search constraints: a surviving row's
borough equals the upper-cased form of every keyword found in the query. -/
def boroughSearchOk (q : List Char) (r : Row) : Prop :=
  ∀ b ∈ boroughKeywords, containsSub b q = true → r.borough = upperStr b

/-- Propositional form of the year-search constraint. -/
def yearSearchOk (q : List Char) (r : Row) : Prop :=
  findYears none q ≠ [] →
    ∃ y, r.crash_year = some y ∧ y ∈ findYears none q

/-- Modelled from the spec: the free-text clause §4.3 describes for residual
unrecognized tokens — a case-insensitive substring match OR'd across
{borough, street name, vehicle category, person type, injury type,
contributing factor}.  `update_all` in `src/main.py` contains no such
clause; this definition exists only to compare the code against the claim. -/
def specFreeTextMatch (term : String) (r : Row) : Bool :=
  [r.borough, r.on_street_name, r.vehicle_category, r.person_type,
    r.person_injury, r.contributing_factor_vehicle_1].any
    (fun s => containsSubL (lowerQ term) (lowerQ s))

/-- Modelled from the spec: whitespace tokenization of the lowered search
text (§4.2 "lower-case and tokenize on whitespace").  `update_all` in
`src/main.py` never tokenizes; this definition exists only to compare the
code against the claim. -/
def splitWsAux (acc : List Char) : List Char → List (List Char)
  | [] => if acc.isEmpty then [] else [acc.reverse]
  | c :: rest =>
    if c == ' ' then
      if acc.isEmpty then splitWsAux [] rest
      else acc.reverse :: splitWsAux [] rest
    else splitWsAux (c :: acc) rest

/-- Modelled from the spec: the whitespace-separated tokens of the lowered
search text (see `splitWsAux`). -/
def specTokens (query : String) : List String :=
  (splitWsAux [] (lowerQ query)).map String.mk

/-- The empty selection: no dropdown has a value. -/
def emptySelection : Selection :=
  ⟨[], [], [], [], []⟩

/-- A sample row with every free-text-relevant column populated. -/
def mkRow (b : String) (y : Option Nat) : Row :=
  { borough := b
    crash_year := y
    vehicle_category := "PASSENGER CAR"
    contributing_factor_vehicle_1 := "UNSPECIFIED"
    person_injury := "INJURED"
    on_street_name := "BROADWAY"
    person_type := "Occupant"
    number_of_pedestrians_injured := 1
    number_of_cyclist_injured := 2
    number_of_motorist_injured := 3 }

/-- A second sample row, distinct from `mkRow` rows in every text column. -/
def mkRow2 : Row :=
  { borough := "QUEENS"
    crash_year := some 2021
    vehicle_category := "BUS"
    contributing_factor_vehicle_1 := "DRIVER INATTENTION/DISTRACTION"
    person_injury := "KILLED"
    on_street_name := "MAIN STREET"
    person_type := "Pedestrian"
    number_of_pedestrians_injured := 0
    number_of_cyclist_injured := 0
    number_of_motorist_injured := 1 }

/-- An injection attempt containing SQL metacharacters (two semicolons). -/
def injAttempt : String :=
  "; drop table collisions ;"

example : containsSub "bronx" (lowerQ "The BRONXVILLE area") = true := by decide
example : findYears none (lowerQ "year 2022 and 2023!") = [2022, 2023] := by decide
example : findYears none (lowerQ "x2022 20223 2o22") = [] := by decide
example : resolvePersonColumn "pedestrian and motorist" = "number_of_motorist_injured" := by decide
example : resolvePersonColumn "" = "number_of_cyclist_injured" := by decide
example : searchGate "ab" = false ∧ searchGate "abc" = true := by decide

theorem mem_ite_skip_filter {c : Bool} {p : Row → Bool} {rows : List Row} {r : Row} :
    r ∈ (if c then rows else rows.filter p) ↔ r ∈ rows ∧ (c = false → p r = true) := by
  cases c <;> simp [List.mem_filter]

theorem mem_ite_filter_skip {c : Bool} {p : Row → Bool} {rows : List Row} {r : Row} :
    r ∈ (if c then rows.filter p else rows) ↔ r ∈ rows ∧ (c = true → p r = true) := by
  cases c <;> simp [List.mem_filter]

theorem mem_applyDropdownFilters {sel : Selection} {rows : List Row} {r : Row} :
    r ∈ applyDropdownFilters sel rows ↔ r ∈ rows ∧ dropdownOk sel r := by
  simp only [applyDropdownFilters, dropdownOk, mem_ite_skip_filter]
  tauto

theorem mem_applyBoroughSearch {q : List Char} {rows : List Row} {r : Row} :
    r ∈ applyBoroughSearch q rows ↔ r ∈ rows ∧ boroughSearchOk q r := by
  simp only [applyBoroughSearch, boroughSearchOk, boroughKeywords, List.foldl,
    mem_ite_filter_skip, List.forall_mem_cons, List.forall_mem_nil, beq_iff_eq,
    and_true]
  tauto

theorem mem_applyYearSearch {q : List Char} {rows : List Row} {r : Row} :
    r ∈ applyYearSearch q rows ↔ r ∈ rows ∧ yearSearchOk q r := by
  unfold applyYearSearch yearSearchOk
  cases hemp : (findYears none q).isEmpty with
  | true =>
    rw [List.isEmpty_iff] at hemp
    simp [hemp]
  | false =>
    have hne : findYears none q ≠ [] := by
      intro h
      rw [h] at hemp
      simp at hemp
    simp only [hemp, if_neg, Bool.false_eq_true, not_false_iff, if_false,
      List.mem_filter]
    constructor
    · rintro ⟨hm, hp⟩
      refine ⟨hm, fun _ => ?_⟩
      cases hcy : r.crash_year with
      | none => rw [hcy] at hp; simp at hp
      | some y =>
        rw [hcy] at hp
        exact ⟨y, rfl, by simpa using hp⟩
    · rintro ⟨hm, hp⟩
      obtain ⟨y, hy, hmem⟩ := hp hne
      exact ⟨hm, by rw [hy]; simpa using hmem⟩

theorem mem_filteredRows {sel : Selection} {query : String} {d : List Row} {r : Row} :
    r ∈ filteredRows sel query d ↔
      r ∈ d ∧ dropdownOk sel r ∧
        (searchGate query = true →
          boroughSearchOk (lowerQ query) r ∧ yearSearchOk (lowerQ query) r) := by
  unfold filteredRows
  cases h : searchGate query <;>
    simp [h, mem_applyDropdownFilters, mem_applyBoroughSearch, mem_applyYearSearch,
      and_assoc]

theorem yearHere_some_range {prev : Option Char} {c1 : Char} {rest : List Char}
    {v : Nat} (h : yearHere prev c1 rest = some v) : 2000 ≤ v ∧ v ≤ 2099 := by
  unfold yearHere at h
  split at h
  · split at h
    · rename_i hcond
      injection h with hv
      subst hv
      simp only [Bool.and_eq_true, beq_iff_eq, isDigitB, decide_eq_true_eq]
        at hcond
      unfold yearVal
      omega
    · exact absurd h (by simp)
  · exact absurd h (by simp)

theorem findYears_range :
    ∀ (l : List Char) (prev : Option Char) (y : Nat),
      y ∈ findYears prev l → 2000 ≤ y ∧ y ≤ 2099 := by
  intro l
  induction l with
  | nil => intro prev y h; simp [findYears] at h
  | cons c rest ih =>
    intro prev y h
    unfold findYears at h
    cases hy : yearHere prev c rest with
    | none => rw [hy] at h; exact ih _ _ h
    | some v =>
      rw [hy] at h
      rcases List.mem_cons.mp h with h1 | h2
      · subst h1
        exact yearHere_some_range hy
      · exact ih _ _ h2

theorem yearVal_mem_findYears :
    ∀ (pre : List Char) (prev : Option Char) (d3 d4 : Char) (post : List Char),
      isDigitB d3 = true → isDigitB d4 = true →
      isWordCharOpt (lastPrev prev pre) = false →
      isWordCharHead post = false →
      yearVal d3 d4 ∈ findYears prev (pre ++ '2' :: '0' :: d3 :: d4 :: post) := by
  intro pre
  induction pre with
  | nil =>
    intro prev d3 d4 post h3 h4 hpre hpost
    simp only [lastPrev, List.foldl_nil] at hpre
    simp [findYears, yearHere, h3, h4, hpre, hpost]
  | cons a pre ih =>
    intro prev d3 d4 post h3 h4 hpre hpost
    have hlp : lastPrev prev (a :: pre) = lastPrev (some a) pre := rfl
    rw [hlp] at hpre
    rw [List.cons_append]
    unfold findYears
    cases hy : yearHere prev a (pre ++ '2' :: '0' :: d3 :: d4 :: post) with
    | none => exact ih (some a) d3 d4 post h3 h4 hpre hpost
    | some v =>
      exact List.mem_cons_of_mem _ (ih (some a) d3 d4 post h3 h4 hpre hpost)

theorem mem_of_containsSubL :
    ∀ (n h : List Char), containsSubL n h = true → ∀ c ∈ n, c ∈ h := by
  intro n h
  induction h with
  | nil =>
    intro hc c hcn
    simp [containsSubL, List.isEmpty_iff] at hc
    subst hc
    simp at hcn
  | cons x rest ih =>
    intro hc c hcn
    unfold containsSubL at hc
    have hc' : n.isPrefixOf (x :: rest) = true ∨ containsSubL n rest = true := by
      simpa using hc
    rcases hc' with hpre | hrec
    · have : n <+: x :: rest := by
        rwa [List.isPrefixOf_iff_prefix] at hpre
      exact this.subset hcn
    · exact List.mem_cons_of_mem _ (ih hrec c hcn)

theorem not_containsSub_of_dangerous {query s : String}
    (hq : hasDangerousChar query = true) (hs : hasDangerousChar s = false) :
    containsSubL query.data s.data = false := by
  by_contra h
  rw [Bool.not_eq_false] at h
  obtain ⟨c, hc1, hc2⟩ := List.any_eq_true.mp hq
  have hmem : c ∈ s.data := mem_of_containsSubL _ _ h c hc1
  exact (List.any_eq_false.mp hs) c hmem hc2

theorem mem_matchedBoroughs {q : List Char} {s : String} :
    s ∈ matchedBoroughs q ↔
      ∃ b ∈ boroughKeywords, containsSub b q = true ∧ s = upperStr b := by
  simp only [matchedBoroughs, List.mem_map, List.mem_filter]
  constructor
  · rintro ⟨b, ⟨hb, hc⟩, rfl⟩
    exact ⟨b, hb, hc, rfl⟩
  · rintro ⟨b, hb, hc, rfl⟩
    exact ⟨b, ⟨hb, hc⟩, rfl⟩

theorem matchedBoroughs_subset {q : List Char} {s : String}
    (hs : s ∈ matchedBoroughs q) : s ∈ boroughVocab := by
  obtain ⟨b, hb, _, rfl⟩ := mem_matchedBoroughs.mp hs
  fin_cases hb <;> decide

theorem upperStr_inj_on_keywords :
    ∀ b ∈ boroughKeywords, ∀ b' ∈ boroughKeywords,
      upperStr b = upperStr b' → b = b' := by
  intro b hb b' hb'
  fin_cases hb <;> fin_cases hb' <;> decide

theorem resolvePersonColumn_eq (query : String) :
    resolvePersonColumn query =
      if searchGate query then
        (if containsSub "motorist" (lowerQ query) then "number_of_motorist_injured"
         else if containsSub "cyclist" (lowerQ query) then "number_of_cyclist_injured"
         else if containsSub "pedestrian" (lowerQ query) then
           "number_of_pedestrians_injured"
         else "number_of_cyclist_injured")
      else "number_of_cyclist_injured" := by
  unfold resolvePersonColumn personMapping
  by_cases hg : searchGate query = true
  · simp only [hg, if_true, List.foldl_cons, List.foldl_nil]
  · simp [hg]

theorem resolvePersonColumn_mem (query : String) :
    resolvePersonColumn query ∈ injuryColumns := by
  rw [resolvePersonColumn_eq]
  split_ifs <;> simp [injuryColumns]

theorem boroughVocab_clean : ∀ s ∈ boroughVocab, hasDangerousChar s = false := by
  decide

theorem injuryColumns_clean : ∀ s ∈ injuryColumns, hasDangerousChar s = false := by
  decide

/-- C1 counterexample: with the dropdown selecting BROOKLYN and the search
text naming MANHATTAN, a BROOKLYN row — which lies in the union of the two
borough value sets — is nonetheless excluded: the result is empty, so the two
sources are intersected, not unioned. -/
theorem claim_C1_counterexample :
    "BROOKLYN" ∈ (Selection.mk ["BROOKLYN"] [] [] [] []).borough ∧
    (mkRow "BROOKLYN" (some 2020)).borough = "BROOKLYN" ∧
    filteredRows ⟨["BROOKLYN"], [], [], [], []⟩ "manhattan crashes"
      [mkRow "BROOKLYN" (some 2020)] = [] := by
  decide

/-- C1 (amended): explicit dropdown selections and values recognized in the
free text are combined conjunctively — the filters are applied sequentially,
so every surviving row must satisfy the dropdown membership constraint AND
every search-derived constraint for the same column (an intersection, not a
union). -/
theorem claim_C1_intersection (sel : Selection) (query : String) (d : List Row)
    (r : Row) (hr : r ∈ filteredRows sel query d) :
    dropdownOk sel r ∧
      (searchGate query = true →
        boroughSearchOk (lowerQ query) r ∧ yearSearchOk (lowerQ query) r) :=
  ⟨(mem_filteredRows.mp hr).2.1, (mem_filteredRows.mp hr).2.2⟩

theorem claim_C1_intersection_witness :
    mkRow "BROOKLYN" (some 2020) ∈
        filteredRows ⟨["BROOKLYN"], [], [], [], []⟩ "brooklyn 2020"
          [mkRow "BROOKLYN" (some 2020)] ∧
      (dropdownOk ⟨["BROOKLYN"], [], [], [], []⟩ (mkRow "BROOKLYN" (some 2020)) ∧
        (searchGate "brooklyn 2020" = true →
          boroughSearchOk (lowerQ "brooklyn 2020") (mkRow "BROOKLYN" (some 2020)) ∧
            yearSearchOk (lowerQ "brooklyn 2020") (mkRow "BROOKLYN" (some 2020)))) :=
  ⟨by decide,
    claim_C1_intersection ⟨["BROOKLYN"], [], [], [], []⟩ "brooklyn 2020"
      [mkRow "BROOKLYN" (some 2020)] (mkRow "BROOKLYN" (some 2020)) (by decide)⟩

/-- C2 counterexample: a search text naming two person types resolves to the
motorist column (the last match in the mapping's order), not to an aggregate
total column; and with no person type named at all, the resolved column is
the cyclist column — the pipeline's hard-coded initial value — again not the
aggregate. -/
theorem claim_C2_counterexample :
    resolvePersonColumn "pedestrian motorist" = "number_of_motorist_injured" ∧
    resolvePersonColumn "pedestrian motorist" ≠ "total_injuries" ∧
    resolvePersonColumn "" = "number_of_cyclist_injured" ∧
    resolvePersonColumn "" ≠ "total_injuries" := by
  decide

/-- C2 (amended): the metric column defaults to `number_of_cyclist_injured`
(not the aggregate); when the gated, lowered search text contains one or more
of the substrings pedestrian / cyclist / motorist, the LAST matching entry of
the mapping wins (motorist over cyclist over pedestrian); the aggregate
`total_injuries` column is never selected.  A text containing exactly one
type name does select that type's column. -/
theorem claim_C2_resolution (query : String) :
    resolvePersonColumn query =
      (if searchGate query then
        (if containsSub "motorist" (lowerQ query) then
          "number_of_motorist_injured"
        else if containsSub "cyclist" (lowerQ query) then
          "number_of_cyclist_injured"
        else if containsSub "pedestrian" (lowerQ query) then
          "number_of_pedestrians_injured"
        else "number_of_cyclist_injured")
      else "number_of_cyclist_injured") ∧
    resolvePersonColumn query ≠ "total_injuries" := by
  refine ⟨resolvePersonColumn_eq query, fun h => ?_⟩
  have hm := resolvePersonColumn_mem query
  rw [h] at hm
  simp [injuryColumns] at hm

/-- C3: for any search text containing a quote character, SQL metacharacter
or control character, every value the emitted filter embeds is drawn from a
fixed whitelist — the five upper-cased borough names, integers in
[2000, 2099], or the three injury-count column names — and the raw text never
occurs inside any embedded value (unrecognized text is simply dropped).  The
pipeline builds structured pandas masks, never an executable query string. -/
theorem claim_C3_injection_safety (query : String)
    (h : hasDangerousChar query = true) :
    (∀ s ∈ matchedBoroughsOf query,
        s ∈ boroughVocab ∧ containsSubL query.data s.data = false) ∧
    (∀ y ∈ yearConstraintOf query, 2000 ≤ y ∧ y ≤ 2099) ∧
    resolvePersonColumn query ∈ injuryColumns ∧
    containsSubL query.data (resolvePersonColumn query).data = false := by
  refine ⟨?_, ?_, resolvePersonColumn_mem query, ?_⟩
  · intro s hs
    have hvocab : s ∈ boroughVocab := by
      unfold matchedBoroughsOf at hs
      split at hs
      · exact matchedBoroughs_subset hs
      · simp at hs
    exact ⟨hvocab, not_containsSub_of_dangerous h (boroughVocab_clean s hvocab)⟩
  · intro y hy
    unfold yearConstraintOf at hy
    split at hy
    · exact findYears_range _ _ _ hy
    · simp at hy
  · exact not_containsSub_of_dangerous h
      (injuryColumns_clean _ (resolvePersonColumn_mem query))

theorem claim_C3_witness :
    hasDangerousChar injAttempt = true ∧
      ((∀ s ∈ matchedBoroughsOf injAttempt,
          s ∈ boroughVocab ∧ containsSubL injAttempt.data s.data = false) ∧
        (∀ y ∈ yearConstraintOf injAttempt, 2000 ≤ y ∧ y ≤ 2099) ∧
        resolvePersonColumn injAttempt ∈ injuryColumns ∧
        containsSubL injAttempt.data (resolvePersonColumn injAttempt).data =
          false) :=
  ⟨by decide, claim_C3_injection_safety injAttempt (by decide)⟩

/-- C4 counterexample: the unrecognized search text "xyzunknown123abc" — no
borough keyword, no year token — imposes no restriction at all: the result
equals the whole two-row dataset even though neither row matches the text
under the spec's OR'd substring clause (so the predicate contains no
free-text clause, and unrecognized text does NOT restrict the rows). -/
theorem claim_C4_counterexample :
    filteredRows emptySelection "xyzunknown123abc"
        [mkRow "BROOKLYN" (some 2020), mkRow2] =
      [mkRow "BROOKLYN" (some 2020), mkRow2] ∧
    ([mkRow "BROOKLYN" (some 2020), mkRow2] : List Row) ≠ [] ∧
    (∀ r ∈ [mkRow "BROOKLYN" (some 2020), mkRow2],
      specFreeTextMatch "xyzunknown123abc" r = false) := by
  decide

/-- C4 (amended): a search text in which nothing is recognized — no borough
keyword occurs as a substring and the year regex finds no match — is ignored
entirely: it contributes no clause of any kind, and the result equals what
the dropdown selections alone produce. -/
theorem claim_C4_unrecognized_ignored (sel : Selection) (query : String)
    (d : List Row)
    (hb : ∀ b ∈ boroughKeywords, containsSub b (lowerQ query) = false)
    (hy : findYears none (lowerQ query) = []) :
    filteredRows sel query d = applyDropdownFilters sel d := by
  have hbx := hb "bronx" (by decide)
  have hbk := hb "brooklyn" (by decide)
  have hmn := hb "manhattan" (by decide)
  have hqn := hb "queens" (by decide)
  have hsi := hb "staten island" (by decide)
  unfold filteredRows
  by_cases hg : searchGate query = true
  · rw [if_pos hg]
    have h1 : applyBoroughSearch (lowerQ query) (applyDropdownFilters sel d) =
        applyDropdownFilters sel d := by
      unfold applyBoroughSearch boroughKeywords
      simp [hbx, hbk, hmn, hqn, hsi]
    rw [h1]
    unfold applyYearSearch
    simp [hy]
  · rw [if_neg hg]

theorem claim_C4_unrecognized_ignored_witness :
    (∀ b ∈ boroughKeywords,
        containsSub b (lowerQ "xyzunknown123abc") = false) ∧
      findYears none (lowerQ "xyzunknown123abc") = [] ∧
      filteredRows ⟨["BROOKLYN"], [], [], [], []⟩ "xyzunknown123abc"
          [mkRow "BROOKLYN" (some 2020), mkRow2] =
        applyDropdownFilters ⟨["BROOKLYN"], [], [], [], []⟩
          [mkRow "BROOKLYN" (some 2020), mkRow2] :=
  ⟨by decide, by decide,
    claim_C4_unrecognized_ignored _ _ _ (by decide) (by decide)⟩

/-- C5: on an empty filtered frame `update_all` returns `[empty] * 9` — nine
empty-state figures — although the callback declares ten figure outputs, so
not every one of the ten outputs receives an empty-state figure (Dash rejects
a 9-element return for a 10-output callback and the request fails). -/
theorem claim_C5_nine_empties :
    update_all ⟨["QUEENS"], [], [], [], []⟩ "" [mkRow "BROOKLYN" (some 2020)] =
      List.replicate 9 Fig.emptyState ∧
    declaredOutputs.length = 10 ∧
    (List.replicate 9 Fig.emptyState).length ≠ declaredOutputs.length := by
  decide

/-- C6: whenever the lowered search text contains a whole-token `20\d{2}`
match (the two trailing digits `d3 d4`, flanked by non-word characters or the
string edges — lower-casing leaves digits and word/non-word class unchanged,
so this is exactly a year token of the search text), the year constraint of
the emitted filter includes that year as an integer, and every surviving row
has its `crash_year` among the detected years. -/
theorem claim_C6_year_detected (query : String) (sel : Selection) (d : List Row)
    (pre post : List Char) (d3 d4 : Char)
    (hq : lowerQ query = pre ++ '2' :: '0' :: d3 :: d4 :: post)
    (h3 : isDigitB d3 = true) (h4 : isDigitB d4 = true)
    (hpre : isWordCharOpt (lastPrev none pre) = false)
    (hpost : isWordCharHead post = false) :
    yearVal d3 d4 ∈ yearConstraintOf query ∧
      ∀ r ∈ filteredRows sel query d,
        ∃ y, r.crash_year = some y ∧ y ∈ yearConstraintOf query := by
  have h1 : (lowerQ query).length = query.length := by
    cases query with
    | mk l => simp [lowerQ, String.length]
  rw [hq] at h1
  simp at h1
  have hlen : query.length = pre.length + 4 + post.length := by omega
  have hne : query ≠ "" := by
    intro h
    rw [h] at hlen
    have h0 : ("" : String).length = 0 := rfl
    rw [h0] at hlen
    omega
  have hg : searchGate query = true := by
    unfold searchGate
    rw [Bool.and_eq_true, bne_iff_ne, decide_eq_true_eq]
    exact ⟨hne, by omega⟩
  have hyc : yearConstraintOf query = findYears none (lowerQ query) := by
    unfold yearConstraintOf
    rw [if_pos hg]
  have hmem : yearVal d3 d4 ∈ findYears none (lowerQ query) := by
    rw [hq]
    exact yearVal_mem_findYears pre none d3 d4 post h3 h4 hpre hpost
  refine ⟨hyc ▸ hmem, ?_⟩
  intro r hr
  have hso := (mem_filteredRows.mp hr).2.2 hg
  obtain ⟨y, hy1, hy2⟩ := hso.2 (List.ne_nil_of_mem hmem)
  exact ⟨y, hy1, hyc ▸ hy2⟩

theorem claim_C6_year_detected_witness :
    lowerQ "saw 2022 crash" =
        "saw ".data ++ '2' :: '0' :: '2' :: '2' :: " crash".data ∧
      isDigitB '2' = true ∧
      isWordCharOpt (lastPrev none ("saw ".data)) = false ∧
      isWordCharHead (" crash".data) = false ∧
      (yearVal '2' '2' ∈ yearConstraintOf "saw 2022 crash" ∧
        ∀ r ∈ filteredRows emptySelection "saw 2022 crash"
            [mkRow "BROOKLYN" (some 2022)],
          ∃ y, r.crash_year = some y ∧ y ∈ yearConstraintOf "saw 2022 crash") :=
  ⟨by decide, by decide, by decide, by decide,
    claim_C6_year_detected "saw 2022 crash" emptySelection
      [mkRow "BROOKLYN" (some 2022)] ("saw ".data) (" crash".data) '2' '2'
      (by decide) (by decide) (by decide) (by decide) (by decide)⟩

/-- C7 counterexample: the search text "bronxville" has the single whitespace
token "bronxville", which is not equal to any borough name — it merely
contains "bronx" as a proper substring — yet the pipeline classifies it as
the borough BRONX (the emitted borough constraint is ["BRONX"]) and a QUEENS
row is filtered out; so matching is substring-based, not exact post-
normalization. -/
theorem claim_C7_counterexample :
    matchedBoroughsOf "bronxville" = ["BRONX"] ∧
    specTokens "bronxville" = ["bronxville"] ∧
    ("bronx" : String) ≠ "bronxville" ∧
    filteredRows emptySelection "bronxville" [mkRow2] = [] := by
  decide

/-- C7 (amended): classification lower-cases the text but never tokenizes:
a borough keyword is classified exactly when it occurs as a substring
anywhere in the lowered text, so a token that merely contains a borough name
IS classified as that borough. -/
theorem claim_C7_substring_classification (query b : String)
    (hb : b ∈ boroughKeywords) (hg : searchGate query = true) :
    upperStr b ∈ matchedBoroughsOf query ↔
      containsSub b (lowerQ query) = true := by
  unfold matchedBoroughsOf
  rw [if_pos hg]
  constructor
  · intro h
    obtain ⟨b', hb', hc', heq⟩ := mem_matchedBoroughs.mp h
    rw [upperStr_inj_on_keywords b hb b' hb' heq]
    exact hc'
  · intro h
    exact mem_matchedBoroughs.mpr ⟨b, hb, h, rfl⟩

theorem claim_C7_substring_classification_witness :
    ("bronx" : String) ∈ boroughKeywords ∧ searchGate "bronxville" = true ∧
      (upperStr "bronx" ∈ matchedBoroughsOf "bronxville" ↔
        containsSub "bronx" (lowerQ "bronxville") = true) :=
  ⟨by decide, by decide,
    claim_C7_substring_classification "bronxville" "bronx" (by decide)
      (by decide)⟩

/-- C8: with an empty search text and no dropdown selections the pipeline
filters nothing: the filtered dataset is the entire dataset, for every
dataset — a zero-clause request denotes "match all", never an empty result. -/
theorem claim_C8_match_all (d : List Row) :
    filteredRows emptySelection "" d = d := by
  rfl

/-- C9: report generation is deterministic — the pipeline is a pure function
of the dropdown selections, the search text and the dataset, so equal inputs
yield structurally identical filtered rows, the same resolved metric column
and identical figure lists. -/
theorem claim_C9_deterministic (sel sel' : Selection) (query query' : String)
    (d d' : List Row) (hs : sel = sel') (hq : query = query') (hd : d = d') :
    filteredRows sel query d = filteredRows sel' query' d' ∧
      resolvePersonColumn query = resolvePersonColumn query' ∧
      update_all sel query d = update_all sel' query' d' := by
  subst hs
  subst hq
  subst hd
  exact ⟨rfl, rfl, rfl⟩

theorem claim_C9_deterministic_witness :
    emptySelection = emptySelection ∧
      ("brooklyn 2020" : String) = "brooklyn 2020" ∧
      ([mkRow2] : List Row) = [mkRow2] ∧
      (filteredRows emptySelection "brooklyn 2020" [mkRow2] =
          filteredRows emptySelection "brooklyn 2020" [mkRow2] ∧
        resolvePersonColumn "brooklyn 2020" =
          resolvePersonColumn "brooklyn 2020" ∧
        update_all emptySelection "brooklyn 2020" [mkRow2] =
          update_all emptySelection "brooklyn 2020" [mkRow2]) :=
  ⟨rfl, rfl, rfl, claim_C9_deterministic _ _ _ _ _ _ rfl rfl rfl⟩

/-- C10: a search text shorter than 3 characters fails the
`len(query) >= 3` gate and is ignored entirely: it adds no borough or year
constraint, leaves the metric column at its default, and the whole report
equals the one produced by the dropdown selections alone. -/
theorem claim_C10_short_query_ignored (sel : Selection) (query : String)
    (d : List Row) (h : query.length < 3) :
    filteredRows sel query d = applyDropdownFilters sel d ∧
      resolvePersonColumn query = "number_of_cyclist_injured" ∧
      update_all sel query d = update_all sel "" d := by
  have h3 : decide (3 ≤ query.length) = false := decide_eq_false (by omega)
  have hg : searchGate query = false := by
    unfold searchGate
    rw [h3, Bool.and_false]
  have hg0 : searchGate "" = false := rfl
  refine ⟨?_, ?_, ?_⟩
  · simp [filteredRows, hg]
  · simp [resolvePersonColumn, hg]
  · simp [update_all, filteredRows, hg, hg0]

theorem claim_C10_short_query_ignored_witness :
    ("no" : String).length < 3 ∧
      (filteredRows ⟨["QUEENS"], [], [], [], []⟩ "no" [mkRow2] =
          applyDropdownFilters ⟨["QUEENS"], [], [], [], []⟩ [mkRow2] ∧
        resolvePersonColumn "no" = "number_of_cyclist_injured" ∧
        update_all ⟨["QUEENS"], [], [], [], []⟩ "no" [mkRow2] =
          update_all ⟨["QUEENS"], [], [], [], []⟩ "" [mkRow2]) :=
  ⟨by decide,
    claim_C10_short_query_ignored ⟨["QUEENS"], [], [], [], []⟩ "no" [mkRow2]
      (by decide)⟩
